import Mathlib

/-!
Verification of the multi-language code-analysis engine
(`app/analysis/multi_language_analyzer.py` and `app/analysis/scanner.py`).

Lines of source text are modelled as `List Char` (Python strings are
sequences of characters, and `len`, `strip`, `startswith`, `count` and
substring tests below mirror the corresponding `str` operations on the
ASCII inputs the analyzer deals with).  External tools (Radon, ESLint,
PMD, …) are inputs to the embedded functions: the scanner's per-file
complexity lists obtained from Radon appear as `List ℚ` arguments.
Where the source rounds a value to one decimal purely for display
(`round(x, 1)`), the embedding keeps the exact computed value; no claim
below is about the display rounding.
-/

/-- Whitespace recognised by Python's `str.strip()` on ASCII text. -/
def isWS (c : Char) : Bool :=
  c == ' ' || c == '\t' || c == '\n' || c == '\r' || c == '\x0b' || c == '\x0c'

/-- Python `str.strip()`: drop leading and trailing whitespace. -/
def trimChars (l : List Char) : List Char :=
  ((l.dropWhile isWS).reverse.dropWhile isWS).reverse

/-- Python `str.startswith(p)`. -/
def startsWithChars : List Char → List Char → Bool
  | [], _ => true
  | _ :: _, [] => false
  | a :: as, b :: bs => a == b && startsWithChars as bs

/-- Python `sub in s` (substring containment). -/
def containsChars (p : List Char) : List Char → Bool
  | [] => startsWithChars p []
  | s@(_ :: rest) => startsWithChars p s || containsChars p rest

/-- Python `s.count(sub)` for a non-empty `sub`: number of
non-overlapping occurrences, scanning left to right. -/
def countSubAux (p : List Char) : Nat → List Char → Nat
  | 0, _ => 0
  | _, [] => 0
  | fuel + 1, s@(_ :: rest) =>
    if startsWithChars p s then
      1 + countSubAux p fuel (s.drop p.length)
    else
      countSubAux p fuel rest

def countSub (p : List Char) (s : List Char) : Nat :=
  countSubAux p s.length s

/-- Characters matched by the regex class `\w` on ASCII text. -/
def isWordChar (c : Char) : Bool :=
  c.isAlphanum || c == '_'

def lowerEq (a b : Char) : Bool :=
  a.toLower == b.toLower

/-- Case-insensitive prefix test (the analyzer compiles every keyword
regex with `re.IGNORECASE`). -/
def startsWithCI : List Char → List Char → Bool
  | [], _ => true
  | _ :: _, [] => false
  | a :: as, b :: bs => lowerEq a b && startsWithCI as bs

/-!
## Heuristic complexity tier
(`MultiLanguageAnalyzer._analyze_files_with_patterns`, lines 600-631, and
`MultiLanguageAnalyzer._extract_function_content`, lines 633-653.)

The branching-construct regexes used by the heuristic tier have three
shapes: `\bkw\b` (a whole word), a plain literal such as `&&` or `||`,
and the ternary pattern `\?\s*:`.  `KeywordPattern` captures exactly
those shapes and `matchLenAt` gives the length of the match each regex
produces at a given position (with the preceding character supplied for
the `\b` boundary test), matching Python `re` semantics on ASCII text.
-/

inductive KeywordPattern where
  | word : List Char → KeywordPattern
  | lit : List Char → KeywordPattern
  | ternary : KeywordPattern
deriving Repr, DecidableEq

/-- Length of the match of a pattern at the head of `s`, where `prev` is
the character just before `s` (`none` at the start of the text);
`none` when the pattern does not match here. -/
def matchLenAt (p : KeywordPattern) (prev : Option Char) (s : List Char) : Option Nat :=
  match p with
  | .word kw =>
    let boundaryBefore := match prev with
      | none => true
      | some c => !isWordChar c
    let boundaryAfter := match s.drop kw.length with
      | [] => true
      | c :: _ => !isWordChar c
    if boundaryBefore && startsWithCI kw s && boundaryAfter then some kw.length else none
  | .lit kw =>
    if startsWithCI kw s then some kw.length else none
  | .ternary =>
    match s with
    | '?' :: rest =>
      let n := (rest.takeWhile isWS).length
      match rest.drop n with
      | ':' :: _ => some (n + 2)
      | _ => none
    | _ => none

/-- `len(re.findall(pattern, s))`: count the non-overlapping matches of
the pattern in `s`, scanning left to right and resuming after each
match.  `fuel` bounds the number of loop steps (every match consumes at
least one character, so `s.length` steps suffice). -/
def countMatchesAux (p : KeywordPattern) : Nat → Option Char → List Char → Nat
  | 0, _, _ => 0
  | _, _, [] => 0
  | fuel + 1, prev, s@(c :: rest) =>
    match matchLenAt p prev s with
    | some len =>
      1 + countMatchesAux p fuel ((s.take (max len 1)).getLast? ) (s.drop (max len 1))
    | none => countMatchesAux p fuel (some c) rest

def countMatches (p : KeywordPattern) (s : List Char) : Nat :=
  countMatchesAux p s.length none s

/-- `MultiLanguageAnalyzer._extract_function_content` loop body: the
scan appends the current character, tracks brace depth once the first
`\x7b` has been seen, stops after the matching close brace, and for
brace-less text stops at the first newline past 200 accumulated
characters. -/
def extractFunctionAux (braceCount : Int) (inFunction : Bool) (acc : List Char) :
    List Char → List Char
  | [] => acc
  | c :: rest =>
    let acc2 := acc ++ [c]
    if c == '\x7b' then
      extractFunctionAux (braceCount + 1) true acc2 rest
    else if c == '\x7d' && inFunction then
      if braceCount - 1 == 0 then acc2
      else extractFunctionAux (braceCount - 1) inFunction acc2 rest
    else if !inFunction && (c == '\n' && acc2.length > 200) then acc2
    else extractFunctionAux braceCount inFunction acc2 rest

/-- `MultiLanguageAnalyzer._extract_function_content(content, start_pos)`. -/
def extract_function_content (content : List Char) (startPos : Nat) : List Char :=
  extractFunctionAux 0 false [] (content.drop startPos)

/-- The complexity loop of `_analyze_files_with_patterns` for one
function match: `complexity = 1`, then
`complexity += len(re.findall(keyword, func_content, re.IGNORECASE))`
for each keyword pattern. -/
def functionComplexity (keywords : List KeywordPattern) (funcContent : List Char) : Nat :=
  keywords.foldl (fun comp kw => comp + countMatches kw funcContent) 1

/-- Complexity reported by the heuristic tier for the function whose
signature match starts at `startPos` of `content`. -/
def analyzeFunctionAt (keywords : List KeywordPattern) (content : List Char)
    (startPos : Nat) : Nat :=
  functionComplexity keywords (extract_function_content content startPos)

/-- The branching-construct patterns of
`analyze_javascript_regex_complexity` (lines 206-210). -/
def jsComplexityKeywords : List KeywordPattern :=
  [.word ("if".toList), .word ("else".toList), .word ("while".toList), .word ("for".toList),
   .word ("switch".toList), .word ("case".toList), .word ("catch".toList), .word ("try".toList),
   .ternary, .lit ("||".toList), .lit ("&&".toList), .word ("do".toList)]

/-- A JavaScript function body containing exactly one `if` and one `for`
and no other branching construct. -/
def jsExampleSource : List Char :=
  "function f(x)\x7b if(x>0)\x7b for(;;)\x7b\x7d \x7d \x7d".toList

theorem foldl_add_count (g : KeywordPattern → Nat) :
    ∀ (l : List KeywordPattern) (i : Nat),
      l.foldl (fun comp kw => comp + g kw) i = i + (l.map g).sum := by
  intro l
  induction l with
  | nil => intro i; simp
  | cons k ks ih =>
    intro i
    simp only [List.foldl_cons, List.map_cons, List.sum_cons, ih]
    omega

/-!
## Complexity metrics
(`MultiLanguageAnalyzer._calculate_complexity_metrics`, lines 655-685,
and `RepositoryScanner._enhanced_complexity_analysis`, lines 441-544.)
-/

/-- The `if complexity <= 5 / elif complexity <= 10 / else` bucket loop
shared verbatim by both complexity passes, threading the three running
counters `(simple, moderate, complex)`. -/
def bucketLoop : List ℚ → ℕ × ℕ × ℕ → ℕ × ℕ × ℕ
  | [], acc => acc
  | score :: rest, (si, mo, co) =>
    if score ≤ 5 then bucketLoop rest (si + 1, mo, co)
    else if score ≤ 10 then bucketLoop rest (si, mo + 1, co)
    else bucketLoop rest (si, mo, co + 1)

/-- Python `min` over a non-empty list, head split off. -/
def listMin (x : ℚ) (l : List ℚ) : ℚ := l.foldl min x

/-- Python `max` over a non-empty list, head split off. -/
def listMax (x : ℚ) (l : List ℚ) : ℚ := l.foldl max x

structure ComplexityMetrics where
  average_complexity : ℚ
  simple_functions : ℕ
  moderate_functions : ℕ
  complex_functions : ℕ
  total_functions : ℕ
  complexity_min : ℚ
  complexity_max : ℚ
deriving Repr, DecidableEq

/-- `MultiLanguageAnalyzer._calculate_complexity_metrics(scores, …)`:
the empty list yields the all-zero record, otherwise average, the
bucket distribution, `total_functions = len(scores)` and min/max. -/
def calculate_complexity_metrics (scores : List ℚ) : ComplexityMetrics :=
  match scores with
  | [] =>
    { average_complexity := 0, simple_functions := 0, moderate_functions := 0,
      complex_functions := 0, total_functions := 0, complexity_min := 0, complexity_max := 0 }
  | s :: rest =>
    let buckets := bucketLoop (s :: rest) (0, 0, 0)
    { average_complexity := (s :: rest).sum / (s :: rest).length
      simple_functions := buckets.1
      moderate_functions := buckets.2.1
      complex_functions := buckets.2.2
      total_functions := (s :: rest).length
      complexity_min := listMin s rest
      complexity_max := listMax s rest }

/-- Stable descending insertion, mirroring
`sorted(…, key=lambda x: x['complexity'], reverse=True)`. -/
def insertDesc (x : ℚ) : List ℚ → List ℚ
  | [] => [x]
  | y :: ys => if y < x then x :: y :: ys else y :: insertDesc x ys

def sortDesc (l : List ℚ) : List ℚ := l.foldr insertDesc []

structure EnhancedComplexityResult where
  complexity_score : ℚ
  complexity_min : ℚ
  complexity_max : ℚ
  simple_functions : ℕ
  moderate_functions : ℕ
  complex_functions : ℕ
  total_functions : ℕ
  high_complexity_functions : List ℚ
deriving Repr, DecidableEq

def zeroEnhancedResult : EnhancedComplexityResult :=
  { complexity_score := 0, complexity_min := 0, complexity_max := 0,
    simple_functions := 0, moderate_functions := 0, complex_functions := 0,
    total_functions := 0, high_complexity_functions := [] }

/-- `RepositoryScanner._enhanced_complexity_analysis`: the input is the
per-Python-file complexity list that Radon's `cc_visit` reports (each
element of `pythonFiles` is one readable file's list of function
complexities).  No Python files, or zero functions found, yields the
all-zero record; otherwise average/min/max, the bucket counts, and the
functions of complexity `> 10` sorted descending and truncated to the
top 10 (`high_complexity_functions`, of which only the complexity field
matters here). -/
def enhanced_complexity_analysis (pythonFiles : List (List ℚ)) : EnhancedComplexityResult :=
  match pythonFiles with
  | [] => zeroEnhancedResult
  | f :: fs =>
    let allComplexities := (f :: fs).flatten
    match allComplexities with
    | [] => zeroEnhancedResult
    | c :: cs =>
      let buckets := bucketLoop (c :: cs) (0, 0, 0)
      { complexity_score := (c :: cs).sum / (c :: cs).length
        complexity_min := listMin c cs
        complexity_max := listMax c cs
        simple_functions := buckets.1
        moderate_functions := buckets.2.1
        complex_functions := buckets.2.2
        total_functions := (c :: cs).length
        high_complexity_functions :=
          (sortDesc ((c :: cs).filter (fun x => 10 < x))).take 10 }

/-- `analyze_repository` caches
`complexity_results['high_complexity_functions']` as
`_cached_complex_functions` (lines 82-83) and
`_enhanced_technical_debt_analysis` computes
`complexity_debt = len(complex_functions) * 15` (lines 706-709). -/
def complexity_debt (pythonFiles : List (List ℚ)) : ℕ :=
  (enhanced_complexity_analysis pythonFiles).high_complexity_functions.length * 15

theorem bucketLoop_sum (l : List ℚ) :
    ∀ si mo co,
      (bucketLoop l (si, mo, co)).1 + (bucketLoop l (si, mo, co)).2.1 +
        (bucketLoop l (si, mo, co)).2.2 = si + mo + co + l.length := by
  induction l with
  | nil => intro si mo co; simp [bucketLoop]
  | cons s rest ih =>
    intro si mo co
    by_cases h5 : s ≤ 5
    · simp only [bucketLoop, if_pos h5, ih]
      simp; omega
    · by_cases h10 : s ≤ 10
      · simp only [bucketLoop, if_neg h5, if_pos h10, ih]
        simp; omega
      · simp only [bucketLoop, if_neg h5, if_neg h10, ih]
        simp; omega

/-- C1: every function found by the heuristic tier is reported with
complexity 1 plus the number of branching-construct keyword occurrences
found in the extracted function body; in particular a body with exactly
one `if` and one `for` and no other branching construct yields
heuristic complexity 3. -/
theorem heuristic_complexity_one_plus_keyword_occurrences :
    (∀ (keywords : List KeywordPattern) (content : List Char) (startPos : Nat),
      analyzeFunctionAt keywords content startPos =
        1 + (keywords.map
              (fun k => countMatches k (extract_function_content content startPos))).sum) ∧
    analyzeFunctionAt jsComplexityKeywords jsExampleSource 0 = 3 := by
  constructor
  · intro keywords content startPos
    exact foldl_add_count _ keywords 1
  · decide

/-- C2: for every list of complexity scores, the three bucket counts
produced by the complexity analysis sum exactly to `total_functions`,
both in `_calculate_complexity_metrics` and in
`_enhanced_complexity_analysis`. -/
theorem bucket_counts_sum_to_total_functions :
    (∀ scores : List ℚ,
      (calculate_complexity_metrics scores).simple_functions +
        (calculate_complexity_metrics scores).moderate_functions +
        (calculate_complexity_metrics scores).complex_functions =
        (calculate_complexity_metrics scores).total_functions) ∧
    (∀ pythonFiles : List (List ℚ),
      (enhanced_complexity_analysis pythonFiles).simple_functions +
        (enhanced_complexity_analysis pythonFiles).moderate_functions +
        (enhanced_complexity_analysis pythonFiles).complex_functions =
        (enhanced_complexity_analysis pythonFiles).total_functions) := by
  constructor
  · intro scores
    match scores with
    | [] => simp [calculate_complexity_metrics]
    | s :: rest =>
      simp only [calculate_complexity_metrics]
      have := bucketLoop_sum (s :: rest) 0 0 0
      simpa using this
  · intro pythonFiles
    match pythonFiles with
    | [] => simp [enhanced_complexity_analysis, zeroEnhancedResult]
    | f :: fs =>
      simp only [enhanced_complexity_analysis]
      match h : (f :: fs).flatten with
      | [] => simp [zeroEnhancedResult]
      | c :: cs =>
        have := bucketLoop_sum (c :: cs) 0 0 0
        simpa using this

/-- C9: when complexity analysis finds zero functions (including when
there are no Python files at all), both complexity passes return a
complete result whose every metric is zero, rather than failing. -/
theorem zero_functions_yield_all_zero_result :
    calculate_complexity_metrics [] =
      { average_complexity := 0, simple_functions := 0, moderate_functions := 0,
        complex_functions := 0, total_functions := 0,
        complexity_min := 0, complexity_max := 0 } ∧
    (∀ pythonFiles : List (List ℚ), pythonFiles.flatten = [] →
      enhanced_complexity_analysis pythonFiles = zeroEnhancedResult) := by
  refine ⟨rfl, ?_⟩
  intro pythonFiles hflat
  cases pythonFiles with
  | nil => rfl
  | cons f fs => simp [enhanced_complexity_analysis, hflat]

/-- Witness for C9 at the concrete input `[[], []]` (two readable
Python files, no functions in either). -/
theorem zero_functions_yield_all_zero_result_witness :
    enhanced_complexity_analysis [[], []] = zeroEnhancedResult :=
  zero_functions_yield_all_zero_result.2 [[], []] rfl

/-- C5 at the failing input: a repository with eleven functions of
complexity 12 gets `complexity_debt = 150` because the cached
`high_complexity_functions` list is truncated to the top ten, while
15 × (number of functions with complexity > 10) = 165. -/
theorem complexity_debt_uses_truncated_top_ten :
    complexity_debt [List.replicate 11 (12 : ℚ)] = 150 ∧
    ((List.replicate 11 (12 : ℚ)).filter (fun c => 10 < c)).length * 15 = 165 := by
  constructor
  · decide
  · decide

/-!
## Understanding score
(`RepositoryScanner.calculate_understanding_score`, lines 1059-1183.)
All five band functions are spelled exactly as the source's `if`/`elif`
chains; the final score is the clamped integer the source returns
(`int(final_score)` is the identity there, every term being an
integer). -/

structure ScoreMetrics where
  complexity_score : ℚ
  maintainability_index : ℚ
  duplication_percentage : ℚ
  technical_debt_minutes : ℚ
  comment_ratio : ℚ
deriving Repr, DecidableEq

def complexityPenalty (complexity : ℚ) : ℤ :=
  if complexity > 20 then 30
  else if complexity > 15 then 20
  else if complexity > 10 then 15
  else 0

def maintainabilityAdjustment (maintainability : ℚ) : ℤ :=
  if maintainability < 30 then -25
  else if maintainability < 50 then -18
  else if maintainability > 85 then 5
  else 0

def duplicationPenalty (duplication : ℚ) : ℤ :=
  if duplication > 25 then 25
  else if duplication > 15 then 18
  else if duplication > 5 then 10
  else 0

def techDebtPenalty (techDebtHours : ℚ) : ℤ :=
  if techDebtHours > 4 then 15
  else if techDebtHours > 2 then 10
  else if techDebtHours > 1 then 5
  else 0

def documentationAdjustment (commentRatio : ℚ) : ℤ :=
  if commentRatio < 3 then -10
  else if commentRatio > 15 then 3
  else if commentRatio > 8 then 1
  else 0

/-- `final_score` after the `max(0, min(100, …))` clamp. -/
def understandingScore (m : ScoreMetrics) : ℤ :=
  max 0 (min 100
    (100 - complexityPenalty m.complexity_score
      + maintainabilityAdjustment m.maintainability_index
      - duplicationPenalty m.duplication_percentage
      - techDebtPenalty (m.technical_debt_minutes / 60)
      + documentationAdjustment m.comment_ratio))

/-- The difficulty label computed from the clamped `final_score`. -/
def understandingLevel (m : ScoreMetrics) : String :=
  let finalScore := understandingScore m
  if finalScore ≥ 85 then "Easy"
  else if finalScore ≥ 65 then "Moderate"
  else if finalScore ≥ 40 then "Challenging"
  else "Difficult"

/-- C3: the understanding score lies in [0, 100] and the difficulty
label follows the fixed cutoffs on the final score: ≥ 85 Easy, ≥ 65
Moderate, ≥ 40 Challenging, otherwise Difficult. -/
theorem understanding_score_bounds_and_level (m : ScoreMetrics) :
    0 ≤ understandingScore m ∧ understandingScore m ≤ 100 ∧
    (85 ≤ understandingScore m → understandingLevel m = "Easy") ∧
    (65 ≤ understandingScore m → understandingScore m < 85 →
      understandingLevel m = "Moderate") ∧
    (40 ≤ understandingScore m → understandingScore m < 65 →
      understandingLevel m = "Challenging") ∧
    (understandingScore m < 40 → understandingLevel m = "Difficult") := by
  refine ⟨le_max_left 0 _, ?_, ?_, ?_, ?_, ?_⟩
  · exact max_le (by norm_num) (min_le_left 100 _)
  · intro h
    simp only [understandingLevel, ge_iff_le, if_pos h]
  · intro h1 h2
    simp only [understandingLevel, ge_iff_le]
    rw [if_neg (by omega), if_pos h1]
  · intro h1 h2
    simp only [understandingLevel, ge_iff_le]
    rw [if_neg (by omega), if_neg (by omega), if_pos h1]
  · intro h
    simp only [understandingLevel, ge_iff_le]
    rw [if_neg (by omega), if_neg (by omega), if_neg (by omega)]

/-- Witness for C3 at a concrete metrics record. -/
theorem understanding_score_bounds_and_level_witness :
    understandingLevel
      { complexity_score := 12, maintainability_index := 60,
        duplication_percentage := 0, technical_debt_minutes := 0,
        comment_ratio := 10 } = "Easy" :=
  (understanding_score_bounds_and_level
    { complexity_score := 12, maintainability_index := 60,
      duplication_percentage := 0, technical_debt_minutes := 0,
      comment_ratio := 10 }).2.2.1 (by
    simp only [understandingScore, complexityPenalty, maintainabilityAdjustment,
      duplicationPenalty, techDebtPenalty, documentationAdjustment]
    norm_num)

theorem complexityPenalty_mono {a b : ℚ} (h : a ≤ b) :
    complexityPenalty a ≤ complexityPenalty b := by
  unfold complexityPenalty
  split_ifs <;> linarith

theorem duplicationPenalty_mono {a b : ℚ} (h : a ≤ b) :
    duplicationPenalty a ≤ duplicationPenalty b := by
  unfold duplicationPenalty
  split_ifs <;> linarith

theorem maintainabilityAdjustment_mono {a b : ℚ} (h : a ≤ b) :
    maintainabilityAdjustment a ≤ maintainabilityAdjustment b := by
  unfold maintainabilityAdjustment
  split_ifs <;> linarith

/-- C4: with all other inputs held fixed the understanding score is
non-increasing in `complexity_score`, non-increasing in
`duplication_percentage`, and non-decreasing in
`maintainability_index`. -/
theorem understanding_score_monotonicity (m : ScoreMetrics) :
    (∀ c c' : ℚ, c ≤ c' →
      understandingScore { m with complexity_score := c' } ≤
        understandingScore { m with complexity_score := c }) ∧
    (∀ d d' : ℚ, d ≤ d' →
      understandingScore { m with duplication_percentage := d' } ≤
        understandingScore { m with duplication_percentage := d }) ∧
    (∀ a a' : ℚ, a ≤ a' →
      understandingScore { m with maintainability_index := a } ≤
        understandingScore { m with maintainability_index := a' }) := by
  refine ⟨?_, ?_, ?_⟩
  · intro c c' h
    dsimp only [understandingScore]
    apply max_le_max le_rfl
    apply min_le_min le_rfl
    have := complexityPenalty_mono h
    omega
  · intro d d' h
    dsimp only [understandingScore]
    apply max_le_max le_rfl
    apply min_le_min le_rfl
    have := duplicationPenalty_mono h
    omega
  · intro a a' h
    dsimp only [understandingScore]
    apply max_le_max le_rfl
    apply min_le_min le_rfl
    have := maintainabilityAdjustment_mono h
    omega

/-- Witness for C4: raising the complexity input from 5 to 25 at a
concrete metrics record cannot raise the score. -/
theorem understanding_score_monotonicity_witness :
    understandingScore
      { complexity_score := 25, maintainability_index := 60,
        duplication_percentage := 0, technical_debt_minutes := 0,
        comment_ratio := 10 } ≤
    understandingScore
      { complexity_score := 5, maintainability_index := 60,
        duplication_percentage := 0, technical_debt_minutes := 0,
        comment_ratio := 10 } :=
  (understanding_score_monotonicity
    { complexity_score := 5, maintainability_index := 60,
      duplication_percentage := 0, technical_debt_minutes := 0,
      comment_ratio := 10 }).1 5 25 (by norm_num)


/-!
## File and function prioritization
(`RepositoryScanner._calculate_file_priority_score`, lines 990-1030,
and `RepositoryScanner._get_priority_level`, lines 1032-1041.)
-/

/-- `RepositoryScanner._get_priority_level(score)`. -/
def get_priority_level (score : ℚ) : String :=
  if score ≥ 70 then "Critical"
  else if score ≥ 50 then "High"
  else if score ≥ 25 then "Medium"
  else "Low"

/-- C8: the tier label is Critical for score ≥ 70, High for
50 ≤ score < 70, Medium for 25 ≤ score < 50 and Low otherwise; in
particular score 69 maps to High and score 70 to Critical. -/
theorem priority_level_tiers :
    (∀ s : ℚ, 70 ≤ s → get_priority_level s = "Critical") ∧
    (∀ s : ℚ, 50 ≤ s → s < 70 → get_priority_level s = "High") ∧
    (∀ s : ℚ, 25 ≤ s → s < 50 → get_priority_level s = "Medium") ∧
    (∀ s : ℚ, s < 25 → get_priority_level s = "Low") ∧
    get_priority_level 69 = "High" ∧ get_priority_level 70 = "Critical" := by
  refine ⟨?_, ?_, ?_, ?_, ?_, ?_⟩
  · intro s h
    simp only [get_priority_level, ge_iff_le, if_pos h]
  · intro s h1 h2
    simp only [get_priority_level, ge_iff_le]
    rw [if_neg (by linarith), if_pos h1]
  · intro s h1 h2
    simp only [get_priority_level, ge_iff_le]
    rw [if_neg (by linarith), if_neg (by linarith), if_pos h1]
  · intro s h
    simp only [get_priority_level, ge_iff_le]
    rw [if_neg (by linarith), if_neg (by linarith), if_neg (by linarith)]
  · norm_num [get_priority_level]
  · norm_num [get_priority_level]

/-- Witness for C8 at the concrete score 80. -/
theorem priority_level_tiers_witness : get_priority_level 80 = "Critical" :=
  priority_level_tiers.1 80 (by norm_num)

/-- The per-file metrics record consumed by
`_calculate_file_priority_score` (produced by `_analyze_single_file`). -/
structure FileMetrics where
  complexity_score : ℚ
  maintainability_index : ℚ
  duplication_percentage : ℚ
  comment_ratio : ℚ
  lines_of_code : ℕ
deriving Repr, DecidableEq

/-- Band `# High complexity penalty` of `_calculate_file_priority_score`. -/
def fileComplexityBand (m : FileMetrics) : ℤ :=
  if m.complexity_score > 15 then 30
  else if m.complexity_score > 10 then 20
  else if m.complexity_score > 5 then 10
  else 0

/-- Band `# Low maintainability penalty`. -/
def fileMaintainabilityBand (m : FileMetrics) : ℤ :=
  if m.maintainability_index < 30 then 25
  else if m.maintainability_index < 50 then 15
  else if m.maintainability_index < 70 then 5
  else 0

/-- Band `# High duplication penalty`. -/
def fileDuplicationBand (m : FileMetrics) : ℤ :=
  if m.duplication_percentage > 30 then 20
  else if m.duplication_percentage > 15 then 10
  else if m.duplication_percentage > 5 then 5
  else 0

/-- Band `# Poor documentation penalty`. -/
def fileDocumentationBand (m : FileMetrics) : ℤ :=
  if m.comment_ratio < 3 then 10
  else if m.comment_ratio < 8 then 5
  else 0

/-- Band `# Large file penalty`. -/
def fileSizeBand (m : FileMetrics) : ℤ :=
  if m.lines_of_code > 500 then 10
  else if m.lines_of_code > 300 then 5
  else 0

/-- `RepositoryScanner._calculate_file_priority_score(metrics)`: the
five additive threshold bands, then `min(100, score)`. -/
def calculate_file_priority_score (m : FileMetrics) : ℤ :=
  min 100 (fileComplexityBand m + fileMaintainabilityBand m + fileDuplicationBand m +
    fileDocumentationBand m + fileSizeBand m)

theorem fileComplexityBand_bounds (m : FileMetrics) :
    0 ≤ fileComplexityBand m ∧ fileComplexityBand m ≤ 30 := by
  unfold fileComplexityBand; split_ifs <;> norm_num

theorem fileMaintainabilityBand_bounds (m : FileMetrics) :
    0 ≤ fileMaintainabilityBand m ∧ fileMaintainabilityBand m ≤ 25 := by
  unfold fileMaintainabilityBand; split_ifs <;> norm_num

theorem fileDuplicationBand_bounds (m : FileMetrics) :
    0 ≤ fileDuplicationBand m ∧ fileDuplicationBand m ≤ 20 := by
  unfold fileDuplicationBand; split_ifs <;> norm_num

theorem fileDocumentationBand_bounds (m : FileMetrics) :
    0 ≤ fileDocumentationBand m ∧ fileDocumentationBand m ≤ 10 := by
  unfold fileDocumentationBand; split_ifs <;> norm_num

theorem fileSizeBand_bounds (m : FileMetrics) :
    0 ≤ fileSizeBand m ∧ fileSizeBand m ≤ 10 := by
  unfold fileSizeBand; split_ifs <;> norm_num

/-- C10: the file priority score always lies in [0, 95] — the five
bands contribute at most 30 + 25 + 20 + 10 + 10 = 95 — so the
`min(100, score)` cap never binds: the result equals the uncapped band
sum. -/
theorem file_priority_score_bounds (m : FileMetrics) :
    0 ≤ calculate_file_priority_score m ∧
    calculate_file_priority_score m ≤ 95 ∧
    calculate_file_priority_score m =
      fileComplexityBand m + fileMaintainabilityBand m + fileDuplicationBand m +
        fileDocumentationBand m + fileSizeBand m := by
  have h1 := fileComplexityBand_bounds m
  have h2 := fileMaintainabilityBand_bounds m
  have h3 := fileDuplicationBand_bounds m
  have h4 := fileDocumentationBand_bounds m
  have h5 := fileSizeBand_bounds m
  unfold calculate_file_priority_score
  omega

/-!
## Quality debt
(`RepositoryScanner._enhanced_technical_debt_analysis`, lines 744-765:
the `quality_debt` loop over the lines of the Python files.)
-/

def fourSpaces : List Char := ("    ".toList)

/-- The per-line body of the quality-debt loop: the line is stripped
first, then 1 minute is added when the stripped text is longer than 120
characters, 2 when the stripped text contains more than 6 occurrences
of four consecutive spaces, and 3 when it contains TODO or FIXME. -/
def quality_debt_line (line : List Char) : ℕ :=
  let lineStripped := trimChars line
  (if lineStripped.length > 120 then 1 else 0) +
  (if countSub fourSpaces lineStripped > 6 then 2 else 0) +
  (if containsChars ("TODO".toList) lineStripped ||
      containsChars ("FIXME".toList) lineStripped then 3 else 0)

/-- `quality_debt_minutes`: the quality-debt counter summed over every
line of every readable Python file (1 minute per counted issue unit). -/
def quality_debt_minutes (pythonFiles : List (List (List Char))) : ℕ :=
  (pythonFiles.map (fun lines => (lines.map quality_debt_line).sum)).sum

/-- A line indented 7 levels deep (28 leading spaces). -/
def deepIndentLine : List Char :=
  List.replicate 28 ' ' ++ ("return compute_total(x)".toList)

/-- C6 at the failing input: a Python line with indentation depth 7
(more than 6) contributes 0 quality-debt minutes, because the code
strips the line before counting four-space runs; the raw line does
contain 7 of them. -/
theorem quality_debt_ignores_indentation :
    quality_debt_line deepIndentLine = 0 ∧
    quality_debt_minutes [[deepIndentLine]] = 0 ∧
    countSub fourSpaces deepIndentLine = 7 := by
  refine ⟨by decide, by decide, by decide⟩

/-!
## Duplication detection
(`RepositoryScanner._is_comment_line`, lines 416-439,
`RepositoryScanner._enhanced_duplication_analysis`, lines 597-683, and
the in-file duplication check of `RepositoryScanner._analyze_single_file`,
lines 963-976.)

A source file is its extension (the part of the path that
`_is_comment_line` and `_get_language_from_extension` inspect) together
with its list of raw lines.  Equal stripped lines hash equally and, as
in any run without a `hash` collision, distinct lines hash distinctly,
so the hash-keyed dictionary is keyed here by the stripped line itself.
-/

structure SrcFile where
  ext : List Char
  lines : List (List Char)

def extListMem (ext : List Char) (exts : List String) : Bool :=
  exts.any (fun e => ext == e.toList)

/-- `RepositoryScanner._is_comment_line(line, file_path)`, with the
file's extension passed directly (the source lowercases it first). -/
def is_comment_line (ext0 : List Char) (line : List Char) : Bool :=
  let ext := ext0.map Char.toLower
  if extListMem ext [".py", ".rb", ".sh", ".bash", ".r", ".pl"] then
    startsWithChars ("#".toList) line
  else if extListMem ext
      [".js", ".ts", ".jsx", ".tsx", ".java", ".c", ".cpp", ".cc", ".cxx",
       ".h", ".hpp", ".cs", ".go", ".rs", ".swift", ".kt", ".scala"] then
    startsWithChars ("//".toList) line || startsWithChars ("/*".toList) line ||
      startsWithChars ("*".toList) line
  else if ext == (".php".toList) then
    startsWithChars ("//".toList) line || startsWithChars ("#".toList) line ||
      startsWithChars ("/*".toList) line
  else if ext == (".lua".toList) then
    startsWithChars ("--".toList) line
  else false

/-- The meaningful-line filter of `_enhanced_duplication_analysis`
(lines 622-625), applied to a stripped line. -/
def isMeaningfulLine (ext : List Char) (stripped : List Char) : Bool :=
  stripped.length > 15 && !(is_comment_line ext stripped) &&
    !(startsWithChars ("import ".toList) stripped ||
      startsWithChars ("from ".toList) stripped ||
      startsWithChars ("#".toList) stripped ||
      startsWithChars ("//".toList) stripped ||
      startsWithChars ("/*".toList) stripped)

/-- The stripped meaningful lines of one file, in order. -/
def meaningfulLines (f : SrcFile) : List (List Char) :=
  (f.lines.map trimChars).filter (fun s => isMeaningfulLine f.ext s)

/-- The duplicate-counting loop: each line whose hash is already in the
dictionary increments `duplicate_lines`; a first occurrence only
records its location. -/
def dupLoop : List (List Char) → List (List Char) → ℕ
  | _, [] => 0
  | seen, l :: rest =>
    if l ∈ seen then 1 + dupLoop seen rest else dupLoop (l :: seen) rest

/-- `duplicate_lines` accumulated over every file against the one
repo-wide dictionary. -/
def duplicate_lines (files : List SrcFile) : ℕ :=
  dupLoop [] (files.map meaningfulLines).flatten

/-- `total_meaningful_lines` accumulated over every file. -/
def total_meaningful_lines (files : List SrcFile) : ℕ :=
  ((files.map meaningfulLines).flatten).length

/-- `duplication_pct = (duplicate_lines / max(total_meaningful_lines, 1)) * 100`
(line 666; rounded to one decimal only for the returned display value). -/
def duplication_percentage (files : List SrcFile) : ℚ :=
  (duplicate_lines files : ℚ) / (max (total_meaningful_lines files) 1 : ℕ) * 100

/-- The line-classification loop of `_analyze_single_file`
(lines 933-940): a line is code when its stripped text is non-empty and
not a comment. -/
def isCodeLine (ext : List Char) (line : List Char) : Bool :=
  let stripped := trimChars line
  !(stripped.isEmpty) && !(is_comment_line ext stripped)

def singleFileCodeLines (ext : List Char) (lines : List (List Char)) : ℕ :=
  (lines.filter (fun line => isCodeLine ext line)).length

/-- The lines entering the in-file duplication check of
`_analyze_single_file` (lines 966-968): stripped, longer than 15
characters and not comments. -/
def singleFileDupEligible (ext : List Char) (lines : List (List Char)) : List (List Char) :=
  (lines.map trimChars).filter
    (fun s => s.length > 15 && !(is_comment_line ext s))

def singleFileDuplicateLines (ext : List Char) (lines : List (List Char)) : ℕ :=
  dupLoop [] (singleFileDupEligible ext lines)

/-- `duplication_pct = (duplicate_lines / max(code_lines, 1)) * 100`
(line 975): the denominator is the file's code-line count. -/
def singleFileDuplicationPct (ext : List Char) (lines : List (List Char)) : ℚ :=
  (singleFileDuplicateLines ext lines : ℚ) /
    (max (singleFileCodeLines ext lines) 1 : ℕ) * 100

theorem dupLoop_le (l : List (List Char)) :
    ∀ seen, dupLoop seen l ≤ l.length := by
  induction l with
  | nil => intro seen; simp [dupLoop]
  | cons x rest ih =>
    intro seen
    by_cases hx : x ∈ seen
    · simp only [dupLoop, if_pos hx, List.length_cons]
      have := ih seen
      omega
    · simp only [dupLoop, if_neg hx, List.length_cons]
      have := ih (x :: seen)
      omega

theorem dupLoop_eq_zero_of_nodup (l : List (List Char)) :
    ∀ seen, l.Nodup → (∀ x ∈ l, x ∉ seen) → dupLoop seen l = 0 := by
  induction l with
  | nil => intro seen _ _; rfl
  | cons x rest ih =>
    intro seen hnd hdisj
    have hx : x ∉ seen := hdisj x (List.mem_cons_self x rest)
    simp only [dupLoop, if_neg hx]
    apply ih (x :: seen) (List.Nodup.of_cons hnd)
    intro y hy
    simp only [List.mem_cons, not_or]
    exact ⟨fun h => (List.nodup_cons.mp hnd).1 (h ▸ hy), hdisj y (List.mem_cons_of_mem x hy)⟩

theorem pct_formula_bounds (n d : ℕ) (h : n ≤ max d 1) :
    0 ≤ (n : ℚ) / (max d 1 : ℕ) * 100 ∧ (n : ℚ) / (max d 1 : ℕ) * 100 ≤ 100 := by
  have hd : (0 : ℚ) < (max d 1 : ℕ) := by
    have : 1 ≤ max d 1 := le_max_right d 1
    exact_mod_cast Nat.lt_of_lt_of_le Nat.zero_lt_one this
  constructor
  · positivity
  · have hdiv : (n : ℚ) / (max d 1 : ℕ) ≤ 1 := by
      rw [div_le_one hd]
      exact_mod_cast h
    calc (n : ℚ) / (max d 1 : ℕ) * 100 ≤ 1 * 100 := by
          exact mul_le_mul_of_nonneg_right hdiv (by norm_num)
      _ = 100 := by norm_num

theorem eligible_length_le_code_lines (ext : List Char) (lines : List (List Char)) :
    (singleFileDupEligible ext lines).length ≤ singleFileCodeLines ext lines := by
  unfold singleFileDupEligible singleFileCodeLines
  rw [← List.countP_eq_length_filter, ← List.countP_eq_length_filter, List.countP_map]
  apply List.countP_mono_left
  intro line _ h
  simp only [Function.comp] at h
  simp only [isCodeLine, Bool.and_eq_true, Bool.not_eq_true', decide_eq_true_eq] at h ⊢
  refine ⟨?_, h.2⟩
  have hlen : (trimChars line).length > 15 := by
    have := h.1
    simpa using this
  cases htl : trimChars line with
  | nil => rw [htl] at hlen; simp at hlen
  | cons a as => simp [List.isEmpty]

/-- A Python file whose two significant lines are identical and whose
third line is short plain code: 1 in-file duplicate, 2 significant
lines, 3 code lines. -/
def dupExampleLines : List (List Char) :=
  [("aaaaaaaaaaaaaaaaaa".toList), ("aaaaaaaaaaaaaaaaaa".toList), ("x = 1".toList)]

/-- C7 counterexample: on `dupExampleLines` the single-file analysis
reports 1 / 3 × 100 = 100/3 percent — duplicate lines over *code*
lines — not duplicate lines over significant lines (1 / 2 × 100 = 50). -/
theorem single_file_duplication_divides_by_code_lines :
    singleFileDuplicationPct (".py".toList) dupExampleLines = 100 / 3 ∧
    singleFileDuplicateLines (".py".toList) dupExampleLines = 1 ∧
    (singleFileDupEligible (".py".toList) dupExampleLines).length = 2 ∧
    (meaningfulLines ⟨".py".toList, dupExampleLines⟩).length = 2 ∧
    singleFileCodeLines (".py".toList) dupExampleLines = 3 ∧
    (100 / 3 : ℚ) ≠ 1 / 2 * 100 := by
  have hd : singleFileDuplicateLines (".py".toList) dupExampleLines = 1 := by decide
  have hc : singleFileCodeLines (".py".toList) dupExampleLines = 3 := by decide
  refine ⟨?_, hd, by decide, by decide, hc, by norm_num⟩
  unfold singleFileDuplicationPct
  rw [hd, hc]
  norm_num

/-- C7 (amended): the repo-wide duplication percentage equals
`duplicate_lines / max(significant_lines, 1) × 100` and lies in
[0, 100]; the single-file percentage instead divides the in-file
duplicate count by the file's *code-line* count, also lies in [0, 100],
and is 0 for a file with no repeated significant lines. -/
theorem duplication_percentage_bounds :
    (∀ files : List SrcFile,
      duplication_percentage files =
        (duplicate_lines files : ℚ) / (max (total_meaningful_lines files) 1 : ℕ) * 100 ∧
      0 ≤ duplication_percentage files ∧ duplication_percentage files ≤ 100) ∧
    (∀ (ext : List Char) (lines : List (List Char)),
      singleFileDuplicationPct ext lines =
        (singleFileDuplicateLines ext lines : ℚ) /
          (max (singleFileCodeLines ext lines) 1 : ℕ) * 100 ∧
      0 ≤ singleFileDuplicationPct ext lines ∧
      singleFileDuplicationPct ext lines ≤ 100 ∧
      ((singleFileDupEligible ext lines).Nodup →
        singleFileDuplicationPct ext lines = 0)) := by
  constructor
  · intro files
    have h1 : duplicate_lines files ≤ total_meaningful_lines files :=
      dupLoop_le ((files.map meaningfulLines).flatten) []
    have hle : duplicate_lines files ≤ max (total_meaningful_lines files) 1 :=
      le_trans h1 (le_max_left _ _)
    have hb := pct_formula_bounds (duplicate_lines files) (total_meaningful_lines files) hle
    exact ⟨rfl, hb.1, hb.2⟩
  · intro ext lines
    have h1 : singleFileDuplicateLines ext lines ≤ (singleFileDupEligible ext lines).length :=
      dupLoop_le (singleFileDupEligible ext lines) []
    have h2 := eligible_length_le_code_lines ext lines
    have hle : singleFileDuplicateLines ext lines ≤ max (singleFileCodeLines ext lines) 1 :=
      le_trans (le_trans h1 h2) (le_max_left _ _)
    have hb := pct_formula_bounds (singleFileDuplicateLines ext lines)
      (singleFileCodeLines ext lines) hle
    refine ⟨rfl, hb.1, hb.2, ?_⟩
    intro hnd
    have hz : singleFileDuplicateLines ext lines = 0 :=
      dupLoop_eq_zero_of_nodup (singleFileDupEligible ext lines) [] hnd (by simp)
    simp [singleFileDuplicationPct, hz]

/-- Witness for C7 at a concrete Python file whose significant lines
are all distinct. -/
theorem duplication_percentage_bounds_witness :
    singleFileDuplicationPct (".py".toList) [("abcdefghijklmnopqr".toList)] = 0 :=
  (duplication_percentage_bounds.2 (".py".toList)
    [("abcdefghijklmnopqr".toList)]).2.2.2 (by decide)
